import Mathlib

/-!
Verification of the flat-generation core of `nef-synthetic-flat-generator`.

Shallow embedding of:
* `apps/flat_generation/utils/raw_utils.py` — `extract_bayer_channels`, `combine_channels`;
* `apps/flat_generation/utils/camera_db.py` — `BayerPatternConverter.standardize_pattern`,
  `CameraDB.get_camera_config`, `CameraDB._matches_camera`, `CameraDB.get_bayer_pattern`,
  `CameraDB.get_master_flat_metadata`;
* `apps/flat_generation/create_flat.py` — the batch-consistency loop of `main`.

Conventions: Python dicts become association lists with distinct keys kept in insertion
order (`dictInsert` models `d[k] = v`); metadata values are strings; a NumPy 2-D array
becomes a `Mat`: explicit dimensions plus a total indexing function (pixel values are
integers — raw sensor samples are unsigned 16-bit, and the float32 cast in
`combine_channels` is exact on that range, so values pass through unchanged); Python
exceptions become `Except PyErr`.
-/

namespace NefFlat

/-- Python exception outcomes that the embedded code can produce.
`inconsistencyError` models the `ValueError` of `create_flat.py` line 110, whose message
renders the `inconsistent_metadata_value` dict; we keep that dict as structured data
(entries `(key, file, expected, found)`, in iteration order). All other constructors
carry the exception's message (or the offending key, for `KeyError`). -/
inductive PyErr where
  | typeError (msg : String)
  | keyError (key : String)
  | indexError (msg : String)
  | valueError (msg : String)
  | inconsistencyError (file : String) (report : List (String × String × String × String))
deriving DecidableEq

/-! ## Mosaic channel codec (`raw_utils.py`) -/

/-- A 2-D NumPy array: dimensions plus a total indexing function. Only indices
`r < rows`, `c < cols` are meaningful. -/
structure Mat where
  rows : Nat
  cols : Nat
  data : Nat → Nat → Int

/-- The dict returned by `extract_bayer_channels`: keys `'R'`, `'B'`, and `'G'`, the
latter a stack of the two green planes (`G0` = stack index 0, top-right pixels;
`G1` = stack index 1, bottom-left pixels). -/
structure ChannelSet where
  R : Mat
  G0 : Mat
  G1 : Mat
  B : Mat

/-- `raw_utils.extract_bayer_channels(raw_data, pattern)`, lines 23–46.
`raw_data[a::2, b::2]` of an `H × W` array has shape `(⌈(H−a)/2⌉, ⌈(W−b)/2⌉)` and entry
`(i, j) ↦ raw_data[2i+a, 2j+b]`. The `pattern` argument is accepted but never used,
exactly as in the source. -/
def extract_bayer_channels (m : Mat) (pattern : String) : ChannelSet :=
  { R := ⟨(m.rows + 1) / 2, (m.cols + 1) / 2, fun i j => m.data (2 * i) (2 * j)⟩
    G0 := ⟨(m.rows + 1) / 2, m.cols / 2, fun i j => m.data (2 * i) (2 * j + 1)⟩
    G1 := ⟨m.rows / 2, (m.cols + 1) / 2, fun i j => m.data (2 * i + 1) (2 * j)⟩
    B := ⟨m.rows / 2, m.cols / 2, fun i j => m.data (2 * i + 1) (2 * j + 1)⟩ }

/-- `raw_utils.combine_channels(channel_data, pattern)`, lines 48–68: a zero array of
shape `(2·R.rows, 2·R.cols)` whose four interleaved sub-grids are overwritten by the
planes (positions outside the shape keep the `np.zeros` value `0`). The `pattern`
argument is accepted but never used, exactly as in the source. -/
def combine_channels (cs : ChannelSet) (pattern : String) : Mat :=
  { rows := cs.R.rows * 2
    cols := cs.R.cols * 2
    data := fun r c =>
      if r < cs.R.rows * 2 ∧ c < cs.R.cols * 2 then
        if r % 2 = 0 then
          if c % 2 = 0 then cs.R.data (r / 2) (c / 2) else cs.G0.data (r / 2) (c / 2)
        else
          if c % 2 = 0 then cs.G1.data (r / 2) (c / 2) else cs.B.data (r / 2) (c / 2)
      else 0 }

/-- C1: For every 2-D mosaic with even height and even width,
`combine_channels (extract_bayer_channels M)` has the same shape as `M` and agrees with
`M` at every in-range position, whatever pattern strings are passed to the two calls. -/
theorem combine_extract_roundtrip (m : Mat) (p q : String)
    (hr : m.rows % 2 = 0) (hc : m.cols % 2 = 0) :
    (combine_channels (extract_bayer_channels m p) q).rows = m.rows ∧
    (combine_channels (extract_bayer_channels m p) q).cols = m.cols ∧
    ∀ r c, r < m.rows → c < m.cols →
      (combine_channels (extract_bayer_channels m p) q).data r c = m.data r c := by
  have hrows : (m.rows + 1) / 2 * 2 = m.rows := by omega
  have hcols : (m.cols + 1) / 2 * 2 = m.cols := by omega
  refine ⟨hrows, hcols, ?_⟩
  intro r c hrlt hclt
  simp only [combine_channels, extract_bayer_channels, hrows, hcols]
  rw [if_pos ⟨hrlt, hclt⟩]
  rcases Nat.mod_two_eq_zero_or_one r with h2r | h2r <;>
    rcases Nat.mod_two_eq_zero_or_one c with h2c | h2c <;>
      simp only [h2r, h2c] <;> simp <;>
        (congr 1 <;> omega)

/-- Concrete 4×4 mosaic used to witness the round-trip theorem. -/
def sampleMosaic : Mat :=
  ⟨4, 4, fun r c => (10 * r + c : Int)⟩

/-- Witness for C1 at the concrete 4×4 mosaic `sampleMosaic`. -/
theorem combine_extract_roundtrip_witness :
    (combine_channels (extract_bayer_channels sampleMosaic "RGGB") "RGGB").data 3 2 =
      sampleMosaic.data 3 2 :=
  (combine_extract_roundtrip sampleMosaic "RGGB" "RGGB" rfl rfl).2.2 3 2
    (by decide) (by decide)

/-- C9: the channel assignment of `extract_bayer_channels` is by fixed interleave
position — `(even, even) ↦ R`, `(odd, odd) ↦ B`, `(even, odd) ↦` green plane 0,
`(odd, even) ↦` green plane 1 — each plane has shape `(H/2, W/2)` for even `H`, `W`,
and the result is identical for every value of the pattern argument. -/
theorem extract_assignment_fixed (m : Mat) (p p' : String)
    (hr : m.rows % 2 = 0) (hc : m.cols % 2 = 0) :
    extract_bayer_channels m p = extract_bayer_channels m p' ∧
    ((extract_bayer_channels m p).R.rows = m.rows / 2 ∧
      (extract_bayer_channels m p).R.cols = m.cols / 2) ∧
    ((extract_bayer_channels m p).G0.rows = m.rows / 2 ∧
      (extract_bayer_channels m p).G0.cols = m.cols / 2) ∧
    ((extract_bayer_channels m p).G1.rows = m.rows / 2 ∧
      (extract_bayer_channels m p).G1.cols = m.cols / 2) ∧
    ((extract_bayer_channels m p).B.rows = m.rows / 2 ∧
      (extract_bayer_channels m p).B.cols = m.cols / 2) ∧
    (∀ i j, (extract_bayer_channels m p).R.data i j = m.data (2 * i) (2 * j)) ∧
    (∀ i j, (extract_bayer_channels m p).G0.data i j = m.data (2 * i) (2 * j + 1)) ∧
    (∀ i j, (extract_bayer_channels m p).G1.data i j = m.data (2 * i + 1) (2 * j)) ∧
    (∀ i j, (extract_bayer_channels m p).B.data i j = m.data (2 * i + 1) (2 * j + 1)) := by
  refine ⟨rfl, ⟨?_, ?_⟩, ⟨?_, ?_⟩, ⟨?_, ?_⟩, ⟨rfl, rfl⟩,
    fun i j => rfl, fun i j => rfl, fun i j => rfl, fun i j => rfl⟩ <;>
    simp only [extract_bayer_channels] <;> omega

/-- Witness for C9 at the concrete 4×4 mosaic with two different pattern strings. -/
theorem extract_assignment_fixed_witness :
    extract_bayer_channels sampleMosaic "RGGB" = extract_bayer_channels sampleMosaic "BGGR" ∧
    (extract_bayer_channels sampleMosaic "RGGB").G0.data 1 0 = sampleMosaic.data 2 1 :=
  ⟨(extract_assignment_fixed sampleMosaic "RGGB" "BGGR" rfl rfl).1,
    (extract_assignment_fixed sampleMosaic "RGGB" "BGGR" rfl rfl).2.2.2.2.2.2.1 1 0⟩

/-! ## Bayer pattern converter (`camera_db.py`, `BayerPatternConverter`) -/

/-- Characters removed by `re.sub(r'[\[\],\s]', '', pattern)`: brackets, comma, and
Python's `\s` whitespace class (space, tab, newline, carriage return, vertical tab,
form feed). -/
def isStrippedChar (c : Char) : Bool :=
  c == '[' || c == ']' || c == ',' || c == ' ' || c == '\t' || c == '\n' || c == '\r' ||
    c == Char.ofNat 11 || c == Char.ofNat 12

/-- The cleaned pattern: strip brackets/commas/whitespace, then uppercase
(`camera_db.py` line 49). -/
def cleanPattern (p : String) : List Char :=
  (p.toList.filter (fun c => !isStrippedChar c)).map Char.toUpper

/-- The three full color words of the greedy tokenizer, as character lists. -/
def bayerWords : List (List Char) :=
  [['R', 'E', 'D'], ['G', 'R', 'E', 'E', 'N'], ['B', 'L', 'U', 'E']]

/-- `any(word.startswith(w) for word in ['RED', 'GREEN', 'BLUE'])` — used both for
`is_word_start` (with a one-character `w`) and for the look-ahead extension test. -/
def extendsBayerWord (w : List Char) : Bool :=
  bayerWords.any (fun word => w.isPrefixOf word)

/-- The single-character entries of `PATTERN_MAP` (lines 20–27): digits `0/1/2` and
letters `R/G/B`. -/
def patternMapChar (c : Char) : Option Char :=
  if c = '0' then some 'R'
  else if c = '1' then some 'G'
  else if c = '2' then some 'B'
  else if c = 'R' then some 'R'
  else if c = 'G' then some 'G'
  else if c = 'B' then some 'B'
  else none

/-- `current_word in cls.PATTERN_MAP` for the collected look-ahead word: the full words
`RED/GREEN/BLUE`, or — when the look-ahead collected a single character — that
character's entry. Multi-character proper prefixes such as `GR` are not keys. -/
def patternMapWord (w : List Char) : Option Char :=
  if w = ['R', 'E', 'D'] then some 'R'
  else if w = ['G', 'R', 'E', 'E', 'N'] then some 'G'
  else if w = ['B', 'L', 'U', 'E'] then some 'B'
  else
    match w with
    | [c] => patternMapChar c
    | _ => none

/-- The look-ahead of lines 72–81: extend `cw` by the next character as long as the
extension is still a prefix of some color word; return the collected word and the
remaining (unconsumed) characters. -/
def collectWord (cw : List Char) : List Char → List Char × List Char
  | [] => (cw, [])
  | c :: cs =>
    if extendsBayerWord (cw ++ [c]) then collectWord (cw ++ [c]) cs else (cw, c :: cs)

/-- The while-loop of lines 63–101, as a fuel-indexed scan (the fuel only bounds the
recursion; `parsePattern` supplies `cs.length`, which `parseGo_fuel_succ` shows is
always enough, so the fuel-exhaustion branch is unreachable). On a word-start character
the collected word is matched against `PATTERN_MAP`; on success consumption advances
past the word, otherwise the single character is retried and consumption advances by
one (`i += 1`), re-scanning the characters the look-ahead had consumed. A character
with no entry raises `KeyError` (lines 92/100). The dead `if current_word:` check of
line 104 is omitted: `current_word` is reset at the end of every word-start iteration
and never set elsewhere, so it is always empty there. -/
def parseGo : Nat → List Char → Except PyErr (List Char)
  | _, [] => .ok []
  | 0, _ :: _ => .error (.keyError "out of fuel")
  | fuel + 1, c :: cs =>
    if extendsBayerWord [c] then
      match patternMapWord (collectWord [c] cs).1 with
      | some letter =>
        match parseGo fuel (collectWord [c] cs).2 with
        | .ok r => .ok (letter :: r)
        | .error e => .error e
      | none =>
        match patternMapChar c with
        | some letter =>
          match parseGo fuel cs with
          | .ok r => .ok (letter :: r)
          | .error e => .error e
        | none => .error (.keyError (String.mk [c]))
    else
      match patternMapChar c with
      | some letter =>
        match parseGo fuel cs with
        | .ok r => .ok (letter :: r)
        | .error e => .error e
      | none => .error (.keyError (String.mk [c]))

/-- The word-format scan applied to the whole cleaned pattern. -/
def parsePattern (cs : List Char) : Except PyErr (List Char) :=
  parseGo cs.length cs

/-- `BayerPatternConverter.standardize_pattern` (lines 29–111). Numeric branch when
every cleaned character is one of `0/1/2` (note: vacuously also for the empty cleaned
string, which then fails the length check); its inner `any(c not in '012')` re-check is
kept even though it can never fire. The digit map agrees with `PATTERN_MAP` on
`{0,1,2}`, the only values the branch guard admits. All failures are `KeyError`,
the `FormatError` of the specification's taxonomy. -/
def standardize_pattern (p : String) : Except PyErr String :=
  let clean := cleanPattern p
  if clean.all (fun c => c == '0' || c == '1' || c == '2') then
    if clean.any (fun c => !(c == '0' || c == '1' || c == '2')) then
      .error (.keyError ("Invalid numeric pattern: " ++ p))
    else if clean.length = 4 then
      .ok (String.mk (clean.map (fun c => if c = '0' then 'R' else if c = '1' then 'G' else 'B')))
    else
      .error (.keyError ("Invalid numeric pattern length: " ++ p))
  else
    match parsePattern clean with
    | .ok r =>
      if r.length = 4 then .ok (String.mk r)
      else .error (.keyError ("Invalid pattern length: " ++ p))
    | .error e => .error e

/-- C2: the four encodings of the same arrangement all normalize to `"RGGB"`. -/
theorem standardize_pattern_canonical_encodings :
    standardize_pattern "[Red,Green][Green,Blue]" = .ok "RGGB" ∧
    standardize_pattern "[0,1,1,2]" = .ok "RGGB" ∧
    standardize_pattern "RGGB" = .ok "RGGB" ∧
    standardize_pattern "r g g b" = .ok "RGGB" :=
  ⟨rfl, rfl, rfl, rfl⟩

/-- Characters that can occur in some vocabulary token: the letters of `RED`, `GREEN`
and `BLUE`, plus the digits `0`, `1`, `2`. -/
def vocabChar (c : Char) : Bool :=
  c == 'R' || c == 'E' || c == 'D' || c == 'G' || c == 'N' ||
    c == 'B' || c == 'L' || c == 'U' || c == '0' || c == '1' || c == '2'

lemma vocabChar_of_digit {c : Char} (h : (c == '0' || c == '1' || c == '2') = true) :
    vocabChar c = true := by
  simp only [Bool.or_eq_true, beq_iff_eq] at h
  rcases h with (rfl | rfl) | rfl <;> rfl

lemma vocabChar_of_extends {w : List Char} (h : extendsBayerWord w = true) :
    ∀ c ∈ w, vocabChar c = true := by
  intro c hc
  rcases List.any_eq_true.mp h with ⟨word, hword, hpre⟩
  have hcw : c ∈ word := (List.isPrefixOf_iff_prefix.mp hpre).sublist.subset hc
  simp only [bayerWords, List.mem_cons, List.not_mem_nil, or_false] at hword
  rcases hword with rfl | rfl | rfl <;> fin_cases hcw <;> rfl

lemma patternMapChar_none_of_not_vocab {c : Char} (h : vocabChar c = false) :
    patternMapChar c = none := by
  unfold patternMapChar
  split_ifs <;> simp_all [vocabChar]

lemma collectWord_snd_length (cw cs : List Char) :
    (collectWord cw cs).2.length ≤ cs.length := by
  induction cs generalizing cw with
  | nil => simp [collectWord]
  | cons c cs ih =>
    simp only [collectWord]
    split
    · exact le_trans (ih _) (Nat.le_succ _)
    · simp

lemma collectWord_snd_mem (x : Char) (hbad : vocabChar x = false) :
    ∀ (cs cw : List Char), x ∈ cs → x ∈ (collectWord cw cs).2 := by
  intro cs
  induction cs with
  | nil => intro cw hx; cases hx
  | cons c cs ih =>
    intro cw hx
    simp only [collectWord]
    split
    · rename_i hext
      have hcvocab : vocabChar c = true :=
        vocabChar_of_extends hext c (by simp)
      rcases List.mem_cons.mp hx with rfl | hxcs
      · rw [hcvocab] at hbad; cases hbad
      · exact ih _ hxcs
    · exact hx

/-- The fuel of `parseGo` is irrelevant once it reaches the list's length, so the
fuel-exhaustion branch of `parseGo` is unreachable from `parsePattern`. -/
lemma parseGo_fuel_succ : ∀ (fuel : Nat) (cs : List Char), cs.length ≤ fuel →
    parseGo (fuel + 1) cs = parseGo fuel cs := by
  intro fuel
  induction fuel with
  | zero =>
    intro cs h
    have : cs = [] := List.eq_nil_of_length_eq_zero (Nat.le_zero.mp h)
    subst this; rfl
  | succ n ih =>
    intro cs h
    cases cs with
    | nil => rfl
    | cons c cs =>
      have h1 : cs.length ≤ n := by simpa using h
      have h2 : (collectWord [c] cs).2.length ≤ n :=
        le_trans (collectWord_snd_length _ _) h1
      simp only [parseGo]
      rw [ih _ h2, ih _ h1]

/-- Any cleaned character outside the vocabulary characters makes the word-format scan
fail: the look-ahead can only consume vocabulary characters, so the scan either fails
earlier or reaches the offending character, which is neither a word start nor a
`PATTERN_MAP` key. -/
lemma parseGo_error_of_bad : ∀ (fuel : Nat) (cs : List Char), cs.length ≤ fuel →
    (∃ x ∈ cs, vocabChar x = false) → ∃ e, parseGo fuel cs = .error e := by
  intro fuel
  induction fuel with
  | zero =>
    intro cs hlen hbad
    have : cs = [] := List.eq_nil_of_length_eq_zero (Nat.le_zero.mp hlen)
    subst this
    rcases hbad with ⟨x, hx, _⟩
    cases hx
  | succ n ih =>
    intro cs hlen hbad
    cases cs with
    | nil =>
      rcases hbad with ⟨x, hx, _⟩
      cases hx
    | cons c cs =>
      rcases hbad with ⟨x, hx, hxbad⟩
      have hlen' : cs.length ≤ n := by simpa using hlen
      by_cases hc : vocabChar c = false
      · have hstart : extendsBayerWord [c] = false := by
          cases hext : extendsBayerWord [c] with
          | false => rfl
          | true =>
            have := vocabChar_of_extends hext c (by simp)
            rw [this] at hc; cases hc
        have hmap : patternMapChar c = none := patternMapChar_none_of_not_vocab hc
        refine ⟨PyErr.keyError (String.mk [c]), ?_⟩
        simp [parseGo, hstart, hmap]
      · have hxc : x ≠ c := fun h => hc (h ▸ hxbad)
        have hxcs : x ∈ cs := by
          rcases List.mem_cons.mp hx with h | h
          · exact absurd h hxc
          · exact h
        simp only [parseGo]
        cases hstart : extendsBayerWord [c] with
        | true =>
          rw [if_pos rfl]
          cases hw : patternMapWord (collectWord [c] cs).1 with
          | some letter =>
            have hrest : x ∈ (collectWord [c] cs).2 :=
              collectWord_snd_mem x hxbad cs [c] hxcs
            have hrlen : (collectWord [c] cs).2.length ≤ n :=
              le_trans (collectWord_snd_length _ _) hlen'
            rcases ih _ hrlen ⟨x, hrest, hxbad⟩ with ⟨e, he⟩
            exact ⟨e, by rw [he]⟩
          | none =>
            cases hm : patternMapChar c with
            | some letter =>
              rcases ih _ hlen' ⟨x, hxcs, hxbad⟩ with ⟨e, he⟩
              exact ⟨e, by rw [he]⟩
            | none => exact ⟨PyErr.keyError (String.mk [c]), rfl⟩
        | false =>
          rw [if_neg Bool.false_ne_true]
          cases hm : patternMapChar c with
          | some letter =>
            rcases ih _ hlen' ⟨x, hxcs, hxbad⟩ with ⟨e, he⟩
            exact ⟨e, by rw [he]⟩
          | none => exact ⟨PyErr.keyError (String.mk [c]), rfl⟩

/-- Counterexample to C3 as stated: the cleaned form of
`"[Red,Green][Green,Blue]"` has length 17 ≠ 4, yet `standardize_pattern` succeeds on
it — so "fails for every input whose cleaned form has length different from 4" is
false. (Only the emitted letter count, not the cleaned length, must be 4.) -/
theorem cleaned_length_clause_counterexample :
    (cleanPattern "[Red,Green][Green,Blue]").length = 17 ∧
    standardize_pattern "[Red,Green][Green,Blue]" = .ok "RGGB" :=
  ⟨rfl, rfl⟩

/-- C3 (amended): `standardize_pattern` fails with a `KeyError` for (i) every input
whose greedy parse emits a letter count other than 4 — equivalently, every successful
result has exactly 4 letters; (ii) every input whose cleaned form contains a character
that occurs in no vocabulary token of {R,G,B,RED,GREEN,BLUE} and is no digit of
{0,1,2} (this covers digits outside {0,1,2}); (iii) every all-numeric input whose
cleaned length differs from 4. In particular `"RGBBR"` and `"1234"` both fail. -/
theorem standardize_pattern_failure_conditions :
    (∀ p r, standardize_pattern p = .ok r → r.length = 4) ∧
    (∀ p, (∃ c ∈ cleanPattern p, vocabChar c = false) →
      ∃ e, standardize_pattern p = Except.error e) ∧
    (∀ p, (cleanPattern p).all (fun c => c == '0' || c == '1' || c == '2') = true →
      (cleanPattern p).length ≠ 4 → ∃ e, standardize_pattern p = Except.error e) ∧
    (∃ e, standardize_pattern "RGBBR" = Except.error e) ∧
    (∃ e, standardize_pattern "1234" = Except.error e) := by
  refine ⟨?_, ?_, ?_, ⟨_, rfl⟩, ⟨_, rfl⟩⟩
  · intro p r h
    simp only [standardize_pattern] at h
    split at h
    · split at h
      · cases h
      · split at h
        · rename_i hlen
          cases h
          simp [String.length_mk, hlen]
        · cases h
    · split at h
      · split at h
        · rename_i hlen
          cases h
          simp [String.length_mk, hlen]
        · cases h
      · cases h
  · intro p hbad
    have hnotall :
        (cleanPattern p).all (fun c => c == '0' || c == '1' || c == '2') = false := by
      rcases hbad with ⟨c, hc, hcbad⟩
      cases hall : (cleanPattern p).all (fun c => c == '0' || c == '1' || c == '2') with
      | false => rfl
      | true =>
        have := vocabChar_of_digit (List.all_eq_true.mp hall c hc)
        rw [this] at hcbad; cases hcbad
    rcases parseGo_error_of_bad (cleanPattern p).length (cleanPattern p) le_rfl hbad
      with ⟨e, he⟩
    refine ⟨e, ?_⟩
    simp only [standardize_pattern, hnotall, Bool.false_eq_true, if_false,
      parsePattern] at he ⊢
    rw [he]
  · intro p hall hlen
    have hany :
        (cleanPattern p).any (fun c => !(c == '0' || c == '1' || c == '2')) = false := by
      rw [List.any_eq_false]
      intro c hc
      simp [List.all_eq_true.mp hall c hc]
    refine ⟨PyErr.keyError ("Invalid numeric pattern length: " ++ p), ?_⟩
    simp only [standardize_pattern, hall, if_true, hany, Bool.false_eq_true,
      if_false]
    rw [if_neg hlen]

/-- Witness for C3 (amended) at concrete inputs: an unknown character (`'X'` in
`"RGXB"`) and an all-numeric input of cleaned length 3 (`"012"`) both fail. -/
theorem standardize_pattern_failure_witness :
    (∃ e, standardize_pattern "RGXB" = Except.error e) ∧
    (∃ e, standardize_pattern "012" = Except.error e) :=
  ⟨standardize_pattern_failure_conditions.2.1 "RGXB" ⟨'X', by decide, by decide⟩,
    standardize_pattern_failure_conditions.2.2.1 "012" (by decide) (by decide)⟩

/-! ## Camera catalog and resolver (`camera_db.py`, `CameraDB`) -/

/-- A flat Python dict from `"group:key"` strings to (string-valued) metadata values,
as an association list whose keys are distinct and kept in insertion order. -/
abbrev Metadata := List (String × String)

/-- Python `d[k] = v` on a dict: replace the value in place when `k` is present,
otherwise append the pair. -/
def dictInsert (d : Metadata) (k v : String) : Metadata :=
  if (d.lookup k).isSome then
    d.map (fun kv => if kv.1 = k then (k, v) else kv)
  else d ++ [(k, v)]

/-- One entry of a descriptor's `exiftool_properties` list: a YAML mapping holding a
`group` key plus the expected `key: value` pairs. -/
structure ExifProp where
  group : String
  fields : List (String × String)
deriving DecidableEq

/-- A `group`/`name` locator, as used by `bayer_pattern` and `master_flat_metadata`
entries of the camera database. -/
structure FieldLoc where
  group : String
  name : String
deriving DecidableEq

/-- One descriptor of the camera database: the `camera:` mapping of one YAML entry. -/
structure Camera where
  exiftool_properties : List ExifProp
  bayer_pattern : List FieldLoc
  master_flat_metadata : List FieldLoc
deriving DecidableEq

/-- `transform_exiftool_properties_to_dict` (`camera_db.py` lines 165–185): flatten
the property list into a dict keyed by `"group:key"`. -/
def transformProps (properties : List ExifProp) : Metadata :=
  properties.foldl
    (fun acc prop =>
      prop.fields.foldl
        (fun acc kv => dictInsert acc (prop.group ++ ":" ++ kv.1) kv.2) acc)
    []

/-- `CameraDB._matches_camera` (lines 154–194): `metadata.get(key) == value` must hold
for every entry of the transformed dict (values are strings, so a missing key — `get`
returning `None` — never equals an expected value). The source counts the matching
keys and compares the count with the dict's size; a dict's keys are distinct, so this
is the count-based formulation. -/
def matchesCamera (metadata : Metadata) (properties : List ExifProp) : Bool :=
  ((transformProps properties).filter
      (fun kv => metadata.lookup kv.1 == some kv.2)).length =
    (transformProps properties).length

/-- `CameraDB.get_camera_config` (lines 135–150), taking the externally-extracted
metadata mapping in place of the NEF file: return the first matching descriptor in
declaration order, else `None`. -/
def get_camera_config (db : List Camera) (metadata : Metadata) : Option Camera :=
  db.find? (fun camera => matchesCamera metadata camera.exiftool_properties)

/-- `CameraDB.get_bayer_pattern` (lines 197–207): `None` when no descriptor matches;
otherwise `metadata.get` of the descriptor's first pattern locator
(`bayer_pattern[0]`; on an empty locator list Python raises `IndexError`). -/
def get_bayer_pattern (db : List Camera) (metadata : Metadata) :
    Except PyErr (Option String) :=
  match get_camera_config db metadata with
  | none => .ok none
  | some camera =>
    match camera.bayer_pattern with
    | [] => .error (.indexError "list index out of range")
    | pc :: _ => .ok (metadata.lookup (pc.group ++ ":" ++ pc.name))

/-- The collection loop of `get_master_flat_metadata` (lines 227–232): the declared
locators present in `metadata`, as a dict in declaration order. -/
def collectFlatFields (camera : Camera) (metadata : Metadata) : Metadata :=
  camera.master_flat_metadata.foldl
    (fun acc field =>
      match metadata.lookup (field.group ++ ":" ++ field.name) with
      | some v => dictInsert acc (field.group ++ ":" ++ field.name) v
      | none => acc)
    []

/-- `CameraDB.get_master_flat_metadata` (lines 209–237). When no descriptor matches,
it returns `{}` before any strictness check. Otherwise it collects the declared
locators present in `metadata`; when `allow_subset_of_defined_flat_metadata` is false
and the collected dict is smaller than the declared list, line 235 formats the error
message `f"... {set(camera_config['master_flat_metadata']) - set(result)}"` — and
`set()` applied to `master_flat_metadata`, a list of (unhashable) dicts, raises
`TypeError: unhashable type: 'dict'` before the intended `ValueError` is constructed. -/
def get_master_flat_metadata (db : List Camera) (metadata : Metadata)
    (allow_subset_of_defined_flat_metadata : Bool) : Except PyErr Metadata :=
  match get_camera_config db metadata with
  | none => .ok []
  | some camera =>
    let result := collectFlatFields camera metadata
    if !allow_subset_of_defined_flat_metadata &&
        camera.master_flat_metadata.length != result.length then
      .error (.typeError "unhashable type: 'dict'")
    else .ok result

/-- C4: resolution scans the catalog in declaration order; a descriptor matches iff
each of its identity-predicate locators is present in the metadata with exactly the
expected value; the first full match is returned, and exhausting the catalog yields
`none` — an ordinary return value, not an error. -/
theorem get_camera_config_first_match (db : List Camera) (metadata : Metadata) :
    (∀ properties, matchesCamera metadata properties = true ↔
      ∀ kv ∈ transformProps properties, metadata.lookup kv.1 = some kv.2) ∧
    (get_camera_config db metadata = none ↔
      ∀ camera ∈ db, matchesCamera metadata camera.exiftool_properties = false) ∧
    (∀ camera, get_camera_config db metadata = some camera →
      matchesCamera metadata camera.exiftool_properties = true ∧
      ∃ pre post, db = pre ++ camera :: post ∧
        ∀ c ∈ pre, matchesCamera metadata c.exiftool_properties = false) := by
  refine ⟨?_, ?_, ?_⟩
  · intro properties
    unfold matchesCamera
    rw [decide_eq_true_iff, List.filter_length_eq_length]
    constructor
    · intro h kv hkv
      simpa using h kv hkv
    · intro h kv hkv
      simp [h kv hkv]
  · unfold get_camera_config
    rw [List.find?_eq_none]
    constructor
    · intro h camera hc
      simpa using h camera hc
    · intro h camera hc
      simp [h camera hc]
  · intro camera h
    unfold get_camera_config at h
    rw [List.find?_eq_some] at h
    obtain ⟨hmatch, pre, post, hdb, hpre⟩ := h
    refine ⟨hmatch, pre, post, hdb, fun c hc => ?_⟩
    simpa using hpre c hc

/-- The sample catalog of the repository's unit tests: a Nikon D5600 descriptor
followed by a Canon EOS 80D descriptor, with disjoint identity predicates. -/
def sampleDB : List Camera :=
  [⟨[⟨"EXIF", [("Make", "NIKON CORPORATION"), ("Model", "NIKON D5600")]⟩],
      [⟨"EXIF", "CFAPattern"⟩],
      [⟨"EXIF", "CFAPattern"⟩, ⟨"MakerNotes", "WhiteBalance"⟩]⟩,
    ⟨[⟨"EXIF", [("Make", "CANON"), ("Model", "EOS 80D")]⟩],
      [⟨"EXIF", "CFAPattern"⟩],
      [⟨"EXIF", "CFAPattern"⟩, ⟨"MakerNotes", "WhiteBalance"⟩]⟩]

/-- Witness for C4 at the sample catalog: metadata satisfying neither descriptor
resolves to not-found. -/
theorem get_camera_config_first_match_witness :
    get_camera_config sampleDB [("EXIF:Make", "SONY"), ("EXIF:Model", "A7")] = none :=
  (get_camera_config_first_match sampleDB
    [("EXIF:Make", "SONY"), ("EXIF:Model", "A7")]).2.1.mpr (by decide)

/-- C10: when no catalog descriptor matches, `get_master_flat_metadata` returns the
empty mapping without raising — for either strictness setting — because the not-found
case returns before the strict completeness check. -/
theorem get_master_flat_metadata_not_found (db : List Camera) (metadata : Metadata)
    (allowSubset : Bool) (h : get_camera_config db metadata = none) :
    get_master_flat_metadata db metadata allowSubset = .ok [] := by
  unfold get_master_flat_metadata
  rw [h]

/-- Witness for C10: strict extraction on metadata matching no descriptor returns the
empty mapping. -/
theorem get_master_flat_metadata_not_found_witness :
    get_master_flat_metadata sampleDB [("EXIF:Make", "SONY"), ("EXIF:Model", "A7")]
      false = .ok [] :=
  get_master_flat_metadata_not_found sampleDB
    [("EXIF:Make", "SONY"), ("EXIF:Model", "A7")] false (by decide)

/-- C5 (code bug): when a descriptor matches but the collected declared fields are
fewer than declared, the strict call raises `TypeError` — Python crashes inside the
f-string of line 235 on `set()` over the list of locator dicts — instead of the
intended error naming the missing locators; the non-strict call returns the present
subset silently. -/
theorem get_master_flat_metadata_strict_bug (db : List Camera) (metadata : Metadata)
    (camera : Camera) (h : get_camera_config db metadata = some camera)
    (hmiss : camera.master_flat_metadata.length ≠
      (collectFlatFields camera metadata).length) :
    get_master_flat_metadata db metadata false =
      .error (.typeError "unhashable type: 'dict'") ∧
    get_master_flat_metadata db metadata true = .ok (collectFlatFields camera metadata) := by
  have hbne : (camera.master_flat_metadata.length !=
      (collectFlatFields camera metadata).length) = true := by
    simpa [bne_iff_ne] using hmiss
  constructor
  · simp [get_master_flat_metadata, h, hbne]
  · simp [get_master_flat_metadata, h]

/-- Witness for C5's bug: a file whose metadata matches the Nikon descriptor but lacks
`MakerNotes:WhiteBalance`; strict extraction raises `TypeError`, naming no locator. -/
theorem get_master_flat_metadata_strict_bug_witness :
    get_master_flat_metadata sampleDB
      [("EXIF:Make", "NIKON CORPORATION"), ("EXIF:Model", "NIKON D5600"),
        ("EXIF:CFAPattern", "RGGB")] false =
      .error (.typeError "unhashable type: 'dict'") :=
  (get_master_flat_metadata_strict_bug sampleDB
    [("EXIF:Make", "NIKON CORPORATION"), ("EXIF:Model", "NIKON D5600"),
      ("EXIF:CFAPattern", "RGGB")]
    (sampleDB.get ⟨0, by decide⟩) (by decide) (by decide)).1

/-! ## Batch consistency validator (`create_flat.py`, `main`, lines 90–119) -/

/-- An input file as the validator sees it: its path and its externally-extracted
metadata mapping. -/
structure NefFile where
  name : String
  metadata : Metadata
deriving DecidableEq

/-- The loop state of `main`: `master_flat_metadata` (initially `{}`) and
`bayer_pattern` (initially `None`). The state holds no file name. -/
structure BatchState where
  master_flat_metadata : Metadata
  bayer_pattern : Option String
deriving DecidableEq

/-- One step of the dict comprehension of lines 100–108: the guard
`master_flat_metadata[key] != value` is evaluated first, a Python `KeyError` when the
baseline lacks `key`; a differing key appends the entry
`(key, file, expected, found)`. -/
def reportStep (baseline : Metadata) (file : String)
    (acc : List (String × String × String × String)) (kv : String × String) :
    Except PyErr (List (String × String × String × String)) :=
  match baseline.lookup kv.1 with
  | none => .error (.keyError kv.1)
  | some expected =>
    .ok (if expected ≠ kv.2 then acc ++ [(kv.1, file, expected, kv.2)] else acc)

/-- The dict comprehension of lines 100–108, iterating over the NEW file's extracted
entries (not over the baseline's): all differing keys are aggregated. -/
def inconsistencyReport (baseline fm : Metadata) (file : String) :
    Except PyErr (List (String × String × String × String)) :=
  fm.foldlM (reportStep baseline file) []

/-- Lines 94–110: strict master-flat extraction, then — first file (empty baseline
dict) — adoption as baseline, or — subsequent file — the inconsistency report, a
nonempty report raising the consistency `ValueError` of line 110. -/
def metaPhase (db : List Camera) (st : BatchState) (f : NefFile) :
    Except PyErr Metadata := do
  let fm ← get_master_flat_metadata db f.metadata false
  if st.master_flat_metadata.isEmpty then
    pure fm
  else do
    let report ← inconsistencyReport st.master_flat_metadata fm f.name
    if report.isEmpty then
      pure st.master_flat_metadata
    else
      throw (.inconsistencyError f.name report)

/-- Lines 112–119. Line 113 normalizes
`camera_db.get_bayer_pattern(nef_file)` — when that is `None`, `re.sub` on `None`
raises `TypeError`. Then, with no baseline pattern yet, line 115 reads
`bayer_pattern = BayerPatternConverter.standardize_pattern( )` — a call with no
argument, so Python raises `TypeError` and no baseline is ever established. With a
baseline, a differing normalized pattern raises the `ValueError` of line 119, whose
f-string names the offending file and the two pattern strings (and nothing else). -/
def patternPhase (db : List Camera) (st : BatchState) (f : NefFile) :
    Except PyErr String := do
  let rawPattern ← get_bayer_pattern db f.metadata
  let filePattern ←
    match rawPattern with
    | none =>
      throw (.typeError "expected string or bytes-like object, got 'NoneType'")
    | some s => standardize_pattern s
  match st.bayer_pattern with
  | none =>
    throw (.typeError
      "standardize_pattern() missing 1 required positional argument: 'pattern'")
  | some baseline =>
    if baseline = filePattern then
      pure baseline
    else
      throw (.valueError ("Bayer pattern inconsistency found in " ++ f.name ++
        ". Expected: " ++ baseline ++ ", Found: " ++ filePattern))

/-- One iteration of the validation loop over `nef_files` (lines 92–119). -/
def processFile (db : List Camera) (st : BatchState) (f : NefFile) :
    Except PyErr BatchState := do
  let mfm ← metaPhase db st f
  let bp ← patternPhase db st f
  pure ⟨mfm, some bp⟩

/-- The whole validation loop from the initial state
(`master_flat_metadata = {}`, `bayer_pattern = None`). -/
def validateFiles (db : List Camera) (files : List NefFile) :
    Except PyErr BatchState :=
  files.foldlM (processFile db) ⟨[], none⟩

lemma exceptBind_ok {ε α β : Type} (a : α) (f : α → Except ε β) :
    (Except.ok a >>= f) = f a := rfl

lemma exceptBind_error {ε α β : Type} (e : ε) (f : α → Except ε β) :
    ((Except.error e : Except ε α) >>= f) = .error e := rfl

lemma exceptMap_ok {ε α β : Type} (g : α → β) (a : α) :
    (g <$> (Except.ok a : Except ε α)) = Except.ok (g a) := rfl

lemma exceptMap_error {ε α β : Type} (g : α → β) (e : ε) :
    (g <$> (Except.error e : Except ε α)) = .error e := rfl

lemma exceptThrow_eq {ε α : Type} (e : ε) : (throw e : Except ε α) = .error e := rfl

lemma exceptPure_eq {ε α : Type} (a : α) : (pure a : Except ε α) = .ok a := rfl

/-- C6 (code bug): for ANY first file — even one that resolves, strictly extracts,
and whose pattern normalizes — the run raises `TypeError` at line 115
(`standardize_pattern( )` called without its required argument), so the
EMPTY→ESTABLISHED transition never succeeds and no batch validates. -/
theorem first_file_always_typeerror (db : List Camera) (f : NefFile)
    (files : List NefFile) (fm : Metadata) (s q : String)
    (hex : get_master_flat_metadata db f.metadata false = .ok fm)
    (hraw : get_bayer_pattern db f.metadata = .ok (some s))
    (hstd : standardize_pattern s = .ok q) :
    validateFiles db (f :: files) =
      .error (.typeError
        "standardize_pattern() missing 1 required positional argument: 'pattern'") := by
  have hstep : processFile db ⟨[], none⟩ f =
      .error (.typeError
        "standardize_pattern() missing 1 required positional argument: 'pattern'") := by
    simp [processFile, metaPhase, patternPhase, hex, hraw, hstd, exceptBind_ok,
      exceptBind_error, exceptMap_ok, exceptMap_error, exceptThrow_eq, exceptPure_eq]
  simp [validateFiles, hstep, exceptBind_ok, exceptBind_error]

/-- The sample first file: matches the Nikon descriptor of `sampleDB`, has both
declared master-flat fields, and carries a normalizable pattern. -/
def firstFile : NefFile :=
  ⟨"first.NEF",
    [("EXIF:Make", "NIKON CORPORATION"), ("EXIF:Model", "NIKON D5600"),
      ("EXIF:CFAPattern", "[Red,Green][Green,Blue]"),
      ("MakerNotes:WhiteBalance", "Auto")]⟩

/-- Witness for C6: the concrete single-file batch hits the line-115 `TypeError`. -/
theorem first_file_always_typeerror_witness :
    validateFiles sampleDB [firstFile] =
      .error (.typeError
        "standardize_pattern() missing 1 required positional argument: 'pattern'") :=
  first_file_always_typeerror sampleDB firstFile []
    [("EXIF:CFAPattern", "[Red,Green][Green,Blue]"), ("MakerNotes:WhiteBalance", "Auto")]
    "[Red,Green][Green,Blue]" "RGGB" rfl rfl rfl

/-- The entries the comprehension of lines 100–108 collects when no `KeyError`
occurs: for each extracted `(key, found)` whose baseline value exists and differs,
the entry `(key, file, expected, found)`. -/
def diffEntries (baseline fm : Metadata) (file : String) :
    List (String × String × String × String) :=
  fm.filterMap (fun kv =>
    match baseline.lookup kv.1 with
    | some expected =>
      if expected ≠ kv.2 then some (kv.1, file, expected, kv.2) else none
    | none => none)

lemma foldlM_reportStep (baseline : Metadata) (file : String) :
    ∀ (fm : Metadata) (acc : List (String × String × String × String)),
      (∀ kv ∈ fm, (baseline.lookup kv.1).isSome = true) →
      fm.foldlM (reportStep baseline file) acc =
        .ok (acc ++ diffEntries baseline fm file) := by
  intro fm
  induction fm with
  | nil => intro acc _; simp [diffEntries, exceptPure_eq]
  | cons kv fm ih =>
    intro acc hcov
    obtain ⟨expected, he⟩ :=
      Option.isSome_iff_exists.mp (hcov kv (List.mem_cons_self kv fm))
    have hcov' : ∀ kv ∈ fm, (baseline.lookup kv.1).isSome = true :=
      fun kv hkv => hcov kv (List.mem_cons_of_mem _ hkv)
    rw [List.foldlM_cons]
    simp only [reportStep, he, exceptBind_ok]
    by_cases hdiff : expected ≠ kv.2
    · rw [if_pos hdiff, ih _ hcov']
      simp [diffEntries, he, hdiff]
    · rw [if_neg hdiff, ih _ hcov']
      simp [diffEntries, he, hdiff]

lemma inconsistencyReport_eq_diffEntries (baseline fm : Metadata) (file : String)
    (hcov : ∀ kv ∈ fm, (baseline.lookup kv.1).isSome = true) :
    inconsistencyReport baseline fm file = .ok (diffEntries baseline fm file) := by
  rw [inconsistencyReport, foldlM_reportStep baseline file fm [] hcov]
  rfl

/-- An established baseline: two declared metadata fields and pattern `RGGB`. -/
def baselineState : BatchState :=
  ⟨[("EXIF:CFAPattern", "RGGB"), ("MakerNotes:WhiteBalance", "Auto")], some "RGGB"⟩

/-- A catalog whose only descriptor declares a single master-flat field, a strict
subset of `baselineState`'s keys. -/
def subsetDB : List Camera :=
  [⟨[⟨"EXIF", [("Make", "X")]⟩], [⟨"EXIF", "CFAPattern"⟩], [⟨"EXIF", "CFAPattern"⟩]⟩]

/-- A subsequent file that resolves to `subsetDB`'s descriptor: its strict extraction
is `{"EXIF:CFAPattern": "RGGB"}` — missing the baseline key
`MakerNotes:WhiteBalance`. -/
def secondFile : NefFile :=
  ⟨"second.NEF", [("EXIF:Make", "X"), ("EXIF:CFAPattern", "RGGB")]⟩

/-- Counterexample to C7 as stated: `secondFile`'s strictly-extracted metadata
differs from the baseline on `MakerNotes:WhiteBalance` (the key is altogether
missing), yet the comprehension — which iterates over the NEW file's keys only —
finds nothing, and the step succeeds with no `ConsistencyError` at all. -/
theorem missing_key_not_detected :
    get_master_flat_metadata subsetDB secondFile.metadata false =
      .ok [("EXIF:CFAPattern", "RGGB")] ∧
    ([("EXIF:CFAPattern", "RGGB")] : Metadata).lookup "MakerNotes:WhiteBalance" = none ∧
    baselineState.master_flat_metadata.lookup "MakerNotes:WhiteBalance" = some "Auto" ∧
    processFile subsetDB baselineState secondFile = .ok baselineState :=
  ⟨rfl, rfl, rfl, rfl⟩

/-- C7 (amended): for a subsequent file whose strict extraction succeeds, when every
extracted key has a baseline value and at least one of those values differs, the
validator raises the consistency error; the report aggregates exactly the differing
extracted keys (not stopping at the first), each entry naming the offending file, the
expected baseline value, and the found value. Baseline keys missing from the new
file's extraction are not compared, and extracted keys absent from the baseline would
raise `KeyError` instead. -/
theorem metadata_divergence_aggregated (db : List Camera) (st : BatchState)
    (f : NefFile) (fm : Metadata)
    (hne : st.master_flat_metadata.isEmpty = false)
    (hex : get_master_flat_metadata db f.metadata false = .ok fm)
    (hcov : ∀ kv ∈ fm, (st.master_flat_metadata.lookup kv.1).isSome = true)
    (hdiff : ∃ kv ∈ fm, st.master_flat_metadata.lookup kv.1 ≠ some kv.2) :
    processFile db st f =
      .error (.inconsistencyError f.name
        (diffEntries st.master_flat_metadata fm f.name)) ∧
    diffEntries st.master_flat_metadata fm f.name ≠ [] ∧
    (∀ k e v, (k, f.name, e, v) ∈ diffEntries st.master_flat_metadata fm f.name ↔
      (k, v) ∈ fm ∧ st.master_flat_metadata.lookup k = some e ∧ e ≠ v) := by
  have hreport := inconsistencyReport_eq_diffEntries st.master_flat_metadata fm f.name hcov
  have hnonempty : diffEntries st.master_flat_metadata fm f.name ≠ [] := by
    obtain ⟨kv, hkv, hkvdiff⟩ := hdiff
    obtain ⟨expected, he⟩ := Option.isSome_iff_exists.mp (hcov kv hkv)
    have hev : expected ≠ kv.2 := fun h => hkvdiff (by rw [he, h])
    refine List.ne_nil_of_mem (a := (kv.1, f.name, expected, kv.2)) ?_
    exact List.mem_filterMap.mpr ⟨kv, hkv, by simp [he, hev]⟩
  refine ⟨?_, hnonempty, ?_⟩
  · have hmeta : metaPhase db st f =
        .error (.inconsistencyError f.name
          (diffEntries st.master_flat_metadata fm f.name)) := by
      simp [metaPhase, hex, hne, hreport, hnonempty, exceptBind_ok, exceptBind_error,
        exceptThrow_eq, List.isEmpty_eq_true]
    simp [processFile, hmeta, exceptBind_error]
  · intro k e v
    constructor
    · intro hmem
      obtain ⟨kv, hkv, hg⟩ := List.mem_filterMap.mp hmem
      rcases hlook : st.master_flat_metadata.lookup kv.1 with _ | expected
      · simp [hlook] at hg
      · by_cases hev : expected ≠ kv.2
        · simp only [hlook, if_pos hev, Option.some.injEq, Prod.mk.injEq, true_and] at hg
          obtain ⟨h1, h3, h4⟩ := hg
          subst h1; subst h3; subst h4
          exact ⟨by simpa using hkv, hlook, hev⟩
        · simp [hlook, hev] at hg
    · rintro ⟨hkv, hlook, hev⟩
      exact List.mem_filterMap.mpr ⟨(k, v), hkv, by simp [hlook, hev]⟩

/-- A subsequent file diverging from the baseline on the value of a shared key. -/
def divergentFile : NefFile :=
  ⟨"third.NEF", [("EXIF:Make", "X"), ("EXIF:CFAPattern", "BGGR")]⟩

/-- Witness for C7 (amended): `divergentFile` carries `EXIF:CFAPattern = BGGR`
against the baseline's `RGGB`; the step raises the consistency error whose report
holds exactly that key with the offending file and both values. -/
theorem metadata_divergence_aggregated_witness :
    processFile subsetDB baselineState divergentFile =
      .error (.inconsistencyError "third.NEF"
        (diffEntries baselineState.master_flat_metadata
          [("EXIF:CFAPattern", "BGGR")] "third.NEF")) ∧
    diffEntries baselineState.master_flat_metadata
        [("EXIF:CFAPattern", "BGGR")] "third.NEF" =
      [("EXIF:CFAPattern", "third.NEF", "RGGB", "BGGR")] :=
  ⟨(metadata_divergence_aggregated subsetDB baselineState divergentFile
      [("EXIF:CFAPattern", "BGGR")] rfl rfl
      (by decide) ⟨("EXIF:CFAPattern", "BGGR"), by decide, by decide⟩).1,
    rfl⟩

/-- Whether `sub` occurs as a contiguous substring of `s`. -/
def strContains (s sub : String) : Bool :=
  (s.toList.tails).any (fun t => sub.toList.isPrefixOf t)

/-- A catalog whose descriptor declares `MakerNotes:WhiteBalance` as the only
master-flat field, so that a file can pass the metadata check and still diverge on
the pattern. -/
def patternDB : List Camera :=
  [⟨[⟨"EXIF", [("Make", "X")]⟩], [⟨"EXIF", "CFAPattern"⟩],
    [⟨"MakerNotes", "WhiteBalance"⟩]⟩]

/-- A baseline as the first file (named `first.NEF` in this scenario) would have
established it: one metadata field and pattern `RGGB`. Faithfully to the code, the
state retains no file name. -/
def patternBaseline : BatchState :=
  ⟨[("MakerNotes:WhiteBalance", "Auto")], some "RGGB"⟩

/-- A subsequent file whose metadata is consistent but whose pattern normalizes to
`BGGR` against the baseline `RGGB`. -/
def mismatchFile : NefFile :=
  ⟨"second.NEF",
    [("EXIF:Make", "X"), ("EXIF:CFAPattern", "BGGR"),
      ("MakerNotes:WhiteBalance", "Auto")]⟩

/-- Counterexample to C8 as stated: the pattern-mismatch error is raised with exactly
the line-119 message, which contains the offending file name and both pattern
strings — but not the baseline file's name (`first.NEF` in this scenario): the loop
state carries no file name at all, so no message it builds can name the baseline
file. "Naming both files" fails. -/
theorem pattern_error_names_one_file :
    processFile patternDB patternBaseline mismatchFile =
      .error (.valueError
        "Bayer pattern inconsistency found in second.NEF. Expected: RGGB, Found: BGGR") ∧
    strContains
      "Bayer pattern inconsistency found in second.NEF. Expected: RGGB, Found: BGGR"
      "second.NEF" = true ∧
    strContains
      "Bayer pattern inconsistency found in second.NEF. Expected: RGGB, Found: BGGR"
      "RGGB" = true ∧
    strContains
      "Bayer pattern inconsistency found in second.NEF. Expected: RGGB, Found: BGGR"
      "BGGR" = true ∧
    strContains
      "Bayer pattern inconsistency found in second.NEF. Expected: RGGB, Found: BGGR"
      "first.NEF" = false :=
  ⟨rfl, by decide, by decide, by decide, by decide⟩

/-- C8 (amended): for a subsequent file that passes the metadata check, the validator
re-normalizes the file's pattern and compares it with the baseline by exact string
equality; a mismatch raises the consistency `ValueError` whose message names the
offending file and both pattern strings (the baseline file is not named — the state
retains only the baseline pattern). -/
theorem pattern_mismatch_raises (db : List Camera) (st : BatchState) (f : NefFile)
    (m : Metadata) (p s q : String)
    (hmeta : metaPhase db st f = .ok m)
    (hbp : st.bayer_pattern = some p)
    (hraw : get_bayer_pattern db f.metadata = .ok (some s))
    (hstd : standardize_pattern s = .ok q)
    (hne : p ≠ q) :
    processFile db st f =
      .error (.valueError ("Bayer pattern inconsistency found in " ++ f.name ++
        ". Expected: " ++ p ++ ", Found: " ++ q)) := by
  have hpat : patternPhase db st f =
      .error (.valueError ("Bayer pattern inconsistency found in " ++ f.name ++
        ". Expected: " ++ p ++ ", Found: " ++ q)) := by
    simp [patternPhase, hraw, hstd, hbp, hne, exceptBind_ok, exceptBind_error,
      exceptThrow_eq]
  simp [processFile, hmeta, hpat, exceptBind_ok, exceptBind_error, exceptMap_error]

/-- Witness for C8 (amended) at the concrete mismatch scenario. -/
theorem pattern_mismatch_raises_witness :
    processFile patternDB patternBaseline mismatchFile =
      .error (.valueError ("Bayer pattern inconsistency found in " ++ "second.NEF" ++
        ". Expected: " ++ "RGGB" ++ ", Found: " ++ "BGGR")) :=
  pattern_mismatch_raises patternDB patternBaseline mismatchFile
    [("MakerNotes:WhiteBalance", "Auto")] "RGGB" "BGGR" "BGGR"
    rfl rfl rfl rfl (by decide)

end NefFlat
